import Mathlib

/-!
Verification of the binance-spot-controller repository.

Shallow embedding of the parts of the source needed by the checked claims:

* `src/lib/ctl-feed/src/protocol.rs` — the subscription reconciler
  (`FeedProtocol<K> for WSConn<K>::update` for `K ∈ {Top, Trade, AggTrade}`);
* `src/lib/ctl-websocket/src/requests/{id.rs,error.rs,request.rs}` — request
  IDs and the JSON control-frame serialization;
* `src/bins/ctl-md-handler/src/config.rs` — configuration validation
  (`Medium::validate`, `SymbolSet::validate`, `FeedConfig::validate`);
* `src/bins/ctl-resource-manager/src/main.rs`,
  `src/bins/ctl-md-handler/src/main.rs`,
  `src/bins/ctl-md-subscriber/src/main.rs` — ring naming;
* `src/lib/ctl-feed/src/parser/parser.rs` and `messages.rs` — the dummy
  parser over the fixed 512-byte `RawMessage` buffer;
* the shared-memory pub/sub ring (crate `dpdk`, not in this repository's
  `src/`), modelled from the specification's description.

Rust strings are embedded as Lean `String`s (byte lengths computed via
`Char.utf8Size`, matching Rust's `str::len`), machine integers as `Nat`/`Int`,
byte buffers as `List Nat` with every element a byte value, and fallible
operations as `Except`.
-/

set_option maxRecDepth 16384

namespace BSC

/-! ### Feed kinds (`src/lib/ctl-feed/src/kind.rs`) -/

/-- The three feed kinds `Top`, `Trade`, `AggTrade` of `kind.rs`, collapsed
into one inductive tag (each is a unit struct in the source). -/
inductive FeedKind
  | top
  | trade
  | aggTrade
deriving DecidableEq, Repr

/-- The kind-specific topic-name suffix appended to a stream name in
`protocol.rs`: `format!("{}@bookTicker", s.name)` in the `Top` impl,
`format!("{}@trade", s.name)` in the `Trade` impl and
`format!("{}@aggTrade", s.name)` in the `AggTrade` impl. -/
def topicSuffix : FeedKind → String
  | .top => "@bookTicker"
  | .trade => "@trade"
  | .aggTrade => "@aggTrade"

/-! ### Stream sets

`Streams<K>` (crate `atx_feed`) is a hash set of streams keyed by stream
name; `protocol.rs` uses only its `difference` operation and iteration.
A stream set is embedded as a `List String` of the member names and
`difference` as the set difference on membership. -/

/-- Set difference `a.difference(&b)` on stream sets: the streams of `a`
whose names are not in `b`. -/
def streamsDifference (a b : List String) : List String :=
  a.filter (fun s => !(b.contains s))

/-! ### The reconciler (`src/lib/ctl-feed/src/protocol.rs`) -/

/-- A control frame passed to `WSConn::send` by the reconciler: the
serialized `WSRequest` was built from `WSRequestKind::Unsubscribe(params)`
or `WSRequestKind::Subscribe(params)` with `id = None`. -/
inductive WSFrame
  | unsub (params : List String)
  | sub (params : List String)
deriving DecidableEq, Repr

/-- The error enum of `src/lib/ctl-websocket/src/error.rs`: a transport
error (`WebsocketConnError`) or a serialization error (`SerdeError`). -/
inductive WebsocketConnectorError
  | websocketConnError
  | serdeError
deriving DecidableEq, Repr

/-- The result of one `update` call: the control frames successfully sent,
in order, and the error returned early by a `?` propagation, if any. -/
structure UpdateResult where
  sent : List WSFrame
  error : Option WebsocketConnectorError
deriving DecidableEq, Repr

/-- `FeedProtocol<K> for WSConn<K>::update` of `protocol.rs`, identical for
the three kinds up to the topic suffix. `current` is `self.streams()` (the
connection's current stream set), `target` the `streams` argument, and
`sendOk n` tells whether the n-th `self.send(..)` call of this invocation
succeeds (the transport is outside the repository; a failed send returns
`WebsocketConnError` through `?`). Serialization of a `WSRequest` built
from lists of strings never fails, so `serde_json::to_vec` is embedded as
total. The body mirrors the source: compute
`unsubscribe_streams = (current − target) mapped to topic names`; if
non-empty send one unsubscribe frame, returning the error on failure;
then compute `subscribe_streams = (target − current)` likewise; if
non-empty send one subscribe frame, returning the error on failure. -/
def update (kind : FeedKind) (current target : List String)
    (sendOk : Nat → Bool) : UpdateResult :=
  let unsubscribeStreams :=
    (streamsDifference current target).map (fun s => s ++ topicSuffix kind)
  if !unsubscribeStreams.isEmpty then
    if sendOk 0 then
      let subscribeStreams :=
        (streamsDifference target current).map (fun s => s ++ topicSuffix kind)
      if !subscribeStreams.isEmpty then
        if sendOk 1 then
          ⟨[.unsub unsubscribeStreams, .sub subscribeStreams], none⟩
        else
          ⟨[.unsub unsubscribeStreams], some .websocketConnError⟩
      else
        ⟨[.unsub unsubscribeStreams], none⟩
    else
      ⟨[], some .websocketConnError⟩
  else
    let subscribeStreams :=
      (streamsDifference target current).map (fun s => s ++ topicSuffix kind)
    if !subscribeStreams.isEmpty then
      if sendOk 0 then
        ⟨[.sub subscribeStreams], none⟩
      else
        ⟨[], some .websocketConnError⟩
    else
      ⟨[], none⟩

/-- Membership in a stream-set difference. -/
theorem mem_streamsDifference (a b : List String) (s : String) :
    s ∈ streamsDifference a b ↔ s ∈ a ∧ s ∉ b := by
  simp [streamsDifference, List.mem_filter]

/-- The difference of a stream set with itself is empty. -/
theorem streamsDifference_self (S : List String) : streamsDifference S S = [] := by
  simp [streamsDifference, List.filter_eq_nil_iff]

/-- C1: for every pair of stream sets of one feed kind, `update` on a
fault-free transport returns no error and sends exactly one unsubscribe
frame listing the kind-suffixed topic names of `current − target` when that
difference is non-empty, followed by one subscribe frame likewise for
`target − current` when non-empty — so at most one frame of each, and the
unsubscribe frame always precedes the subscribe frame; the two differences
are the set differences of the inputs; and reconciling
`current = {btcusdt, ethusdt}` against `target = {ethusdt, solusdt}` for
kind `Trade` sends exactly `UNSUBSCRIBE ["btcusdt@trade"]` then
`SUBSCRIBE ["solusdt@trade"]`. -/
theorem update_computes_minimal_diff (kind : FeedKind)
    (current target : List String) :
    (update kind current target (fun _ => true)).error = none ∧
    (update kind current target (fun _ => true)).sent =
      (if (streamsDifference current target).isEmpty then [] else
        [WSFrame.unsub ((streamsDifference current target).map
          (fun s => s ++ topicSuffix kind))]) ++
      (if (streamsDifference target current).isEmpty then [] else
        [WSFrame.sub ((streamsDifference target current).map
          (fun s => s ++ topicSuffix kind))]) ∧
    (∀ s, s ∈ streamsDifference current target ↔ s ∈ current ∧ s ∉ target) ∧
    (∀ s, s ∈ streamsDifference target current ↔ s ∈ target ∧ s ∉ current) ∧
    update .trade ["btcusdt", "ethusdt"] ["ethusdt", "solusdt"]
        (fun _ => true) =
      ⟨[.unsub ["btcusdt@trade"], .sub ["solusdt@trade"]], none⟩ := by
  refine ⟨?_, ?_, fun s => mem_streamsDifference .., fun s => mem_streamsDifference .., by decide⟩ <;>
  · unfold update
    cases h1 : streamsDifference current target <;>
      cases h2 : streamsDifference target current <;> simp

/-- C2: reconciliation is idempotent — for every stream set `S` and every
transport behavior, reconciling `current = S` against `target = S` sends
zero frames and returns no error; in particular for `S = {btc, eth}`. -/
theorem update_idempotent (kind : FeedKind) (S : List String)
    (sendOk : Nat → Bool) :
    update kind S S sendOk = ⟨[], none⟩ ∧
    update kind ["btc", "eth"] ["btc", "eth"] sendOk = ⟨[], none⟩ := by
  constructor <;> simp [update, streamsDifference_self]

/-- C3: a send failure is propagated to the caller at once as a typed
`WebsocketConnError`, with no retry and nothing further sent: if the
unsubscribe send (the first one, when `current − target` is non-empty)
fails, `update` returns the error having sent nothing — in particular no
subscribe frame; if the subscribe send fails (either as second send after
a successful unsubscribe, or as the only send when `current − target` is
empty), `update` returns the error with no subscribe frame sent. Each
equality holds for every transport behavior agreeing on the consulted
send indices, so the result never depends on a retry. -/
theorem update_propagates_send_failure (kind : FeedKind)
    (current target : List String) (sendOk : Nat → Bool) :
    (streamsDifference current target ≠ [] → sendOk 0 = false →
      update kind current target sendOk = ⟨[], some .websocketConnError⟩) ∧
    (streamsDifference current target ≠ [] → sendOk 0 = true →
      streamsDifference target current ≠ [] → sendOk 1 = false →
      update kind current target sendOk =
        ⟨[.unsub ((streamsDifference current target).map
            (fun s => s ++ topicSuffix kind))], some .websocketConnError⟩) ∧
    (streamsDifference current target = [] →
      streamsDifference target current ≠ [] → sendOk 0 = false →
      update kind current target sendOk = ⟨[], some .websocketConnError⟩) := by
  refine ⟨fun h1 h0 => ?_, fun h1 h0 h2 h1' => ?_, fun h1 h2 h0 => ?_⟩ <;>
  · unfold update
    cases h1' : streamsDifference current target <;>
      cases h2' : streamsDifference target current <;>
        simp_all

/-- Concrete instantiations of `update_propagates_send_failure`, one per
conjunct, discharging every hypothesis. -/
theorem update_propagates_send_failure_witness :
    update .trade ["a"] [] (fun _ => false) =
      ⟨[], some .websocketConnError⟩ ∧
    update .trade ["a"] ["b"] (fun n => n == 0) =
      ⟨[.unsub ["a@trade"]], some .websocketConnError⟩ ∧
    update .trade [] ["b"] (fun _ => false) =
      ⟨[], some .websocketConnError⟩ :=
  ⟨(update_propagates_send_failure .trade ["a"] [] (fun _ => false)).1
      (by decide) rfl,
   (update_propagates_send_failure .trade ["a"] ["b"] (fun n => n == 0)).2.1
      (by decide) rfl (by decide) rfl,
   (update_propagates_send_failure .trade [] ["b"] (fun _ => false)).2.2
      (by decide) (by decide) rfl⟩

/-! ### Request IDs (`src/lib/ctl-websocket/src/requests/id.rs`) -/

/-- The UTF-8 byte length of a string, as Rust's `str::len` computes it.
`arraystring::ArrayString` capacities are measured in these bytes. -/
def utf8Len (s : String) : Nat :=
  s.data.foldl (fun n c => n + c.utf8Size) 0

/-- `RequestIdString = ArrayString<U36>`: a string whose UTF-8 byte length
is at most 36, the invariant `ArrayString::try_from_str` enforces. -/
structure RequestIdString where
  s : String
  hle : utf8Len s ≤ 36

/-- `WSRequestId` of `id.rs`: an `i64` or a `RequestIdString`. -/
inductive WSRequestId
  | int (v : Int)
  | string (v : RequestIdString)

/-- `WSRequestError` of `src/lib/ctl-websocket/src/requests/error.rs`. -/
inductive WSRequestError
  | requestIdTooLong (id : String) (len : Nat) (max : Nat)

/-- `TryFrom<&str> for WSRequestId` of `id.rs`:
`RequestIdString::try_from_str(v)` succeeds exactly when `v.len() ≤ 36`
bytes; on failure the returned error carries
`id = try_from_str(v).unwrap_or_default()` — which is the empty string,
since the retried conversion fails again — `len = v.len()` in bytes, and
`max = 36`. -/
def WSRequestId.tryFromStr (v : String) : Except WSRequestError WSRequestId :=
  if h : utf8Len v ≤ 36 then .ok (.string ⟨v, h⟩)
  else .error (.requestIdTooLong "" (utf8Len v) 36)

/-- A string has at least as many UTF-8 bytes as characters. -/
theorem length_le_utf8Len (s : String) : s.length ≤ utf8Len s := by
  show s.data.length ≤ _
  have key : ∀ (l : List Char) (n : Nat),
      l.length + n ≤ l.foldl (fun n c => n + c.utf8Size) n := by
    intro l
    induction l with
    | nil => simp
    | cons c t ih =>
      intro n
      have h1 := ih (n + c.utf8Size)
      have h2 := Char.utf8Size_pos c
      simp only [List.length_cons, List.foldl_cons]
      omega
  simpa using key s.data 0

/-- C4 counterexample: the length limit of `WSRequestId` construction is
measured in UTF-8 bytes, not characters — the 13-character string of
thirteen Euro signs (39 bytes) is rejected, although it has at most 36
characters, so construction does not succeed for every string of at most
36 characters. -/
theorem tryFromStr_not_char_counted :
    ("€€€€€€€€€€€€€" : String).length = 13 ∧
    WSRequestId.tryFromStr "€€€€€€€€€€€€€" =
      .error (.requestIdTooLong "" 39 36) :=
  ⟨rfl, rfl⟩

/-- C4 (amended): constructing a `WSRequestId` from a string succeeds for
every string of at most 36 UTF-8 bytes (yielding an id equal to the
input) and fails for every longer string with a typed `RequestIdTooLong`
error reporting the input's byte length and `max = 36`, never truncating;
for ASCII inputs bytes coincide with characters, so the 36-character id
`"a" * 36` is accepted and the 37-character id `"a" * 37` is rejected
with `len = 37`, `max = 36`. -/
theorem tryFromStr_byte_bound (v : String) :
    (∀ h : utf8Len v ≤ 36,
      WSRequestId.tryFromStr v = .ok (.string ⟨v, h⟩)) ∧
    (¬ utf8Len v ≤ 36 →
      WSRequestId.tryFromStr v =
        .error (.requestIdTooLong "" (utf8Len v) 36)) ∧
    (∃ h : utf8Len (String.mk (List.replicate 36 'a')) ≤ 36,
      WSRequestId.tryFromStr (String.mk (List.replicate 36 'a')) =
        .ok (.string ⟨String.mk (List.replicate 36 'a'), h⟩)) ∧
    WSRequestId.tryFromStr (String.mk (List.replicate 37 'a')) =
      .error (.requestIdTooLong "" 37 36) := by
  refine ⟨fun h => ?_, fun h => ?_, ⟨by decide, rfl⟩, rfl⟩
  · rw [WSRequestId.tryFromStr, dif_pos h]
  · rw [WSRequestId.tryFromStr, dif_neg h]

/-- Concrete instantiations of `tryFromStr_byte_bound`: the accepting
branch at `"abc"` and the rejecting branch at 37 repeated `'a'`s. -/
theorem tryFromStr_byte_bound_witness :
    WSRequestId.tryFromStr "abc" = .ok (.string ⟨"abc", by decide⟩) ∧
    WSRequestId.tryFromStr (String.mk (List.replicate 37 'a')) =
      .error (.requestIdTooLong ""
        (utf8Len (String.mk (List.replicate 37 'a'))) 36) :=
  ⟨(tryFromStr_byte_bound "abc").1 (by decide),
   (tryFromStr_byte_bound (String.mk (List.replicate 37 'a'))).2.1
     (by decide)⟩

/-! ### Control frames (`src/lib/ctl-websocket/src/requests/request.rs`)

`WSRequest` carries a `#[serde(flatten)]`-ed `WSRequestKind` — adjacently
tagged with `tag = "method"`, `content = "params"` — and an
`id: Option<WSRequestId>`. Its `serde_json` serialization is embedded as
`WSRequest.toJson` below: the adjacent tagging yields a `"method"` field
holding the variant's rename and, for variants with a payload, a
`"params"` field holding the payload array; the unit variant
`ListSubscriptions` yields no `"params"` field (as the repository's own
`test_serialize_list_subscriptions` asserts); the `id` field is always
present, `null` for `None`, the untagged `WSRequestId` otherwise. -/

/-- JSON values, as far as `serde_json::Value` is exercised here. -/
inductive Json
  | null
  | bool (b : Bool)
  | int (n : Int)
  | str (s : String)
  | arr (xs : List Json)
  | obj (fields : List (String × Json))

/-- `WSRequestKind` of `request.rs`. -/
inductive WSRequestKind
  | subscribe (params : List String)
  | unsubscribe (params : List String)
  | listSubscriptions
  | setProperty (params : List Json)
  | getProperty (params : List String)

/-- `WSRequest` of `request.rs`. -/
structure WSRequest where
  kind : WSRequestKind
  id : Option WSRequestId

/-- The `#[serde(rename = ...)]` method names of the variants. -/
def WSRequestKind.methodName : WSRequestKind → String
  | .subscribe _ => "SUBSCRIBE"
  | .unsubscribe _ => "UNSUBSCRIBE"
  | .listSubscriptions => "LIST_SUBSCRIPTIONS"
  | .setProperty _ => "SET_PROPERTY"
  | .getProperty _ => "GET_PROPERTY"

/-- The serialized `"params"` content of a variant: the payload array, or
nothing for the unit variant `ListSubscriptions`. -/
def WSRequestKind.paramsJson : WSRequestKind → Option Json
  | .subscribe ps => some (.arr (ps.map .str))
  | .unsubscribe ps => some (.arr (ps.map .str))
  | .listSubscriptions => none
  | .setProperty ps => some (.arr ps)
  | .getProperty ps => some (.arr (ps.map .str))

/-- The `#[serde(untagged)]` serialization of `WSRequestId`. -/
def WSRequestId.toJson : WSRequestId → Json
  | .int v => .int v
  | .string r => .str r.s

/-- The serialized `"id"` field: `null` for `None`. -/
def idJson : Option WSRequestId → Json
  | some i => i.toJson
  | none => .null

/-- The `serde_json` serialization of a `WSRequest`. -/
def WSRequest.toJson (r : WSRequest) : Json :=
  .obj (("method", Json.str r.kind.methodName) ::
    (match r.kind.paramsJson with
      | some p => [("params", p)]
      | none => []) ++
    [("id", idJson r.id)])

/-- C7 counterexample: not every serialized `WSRequest` has a `"params"`
field — a `LIST_SUBSCRIPTIONS` request with id 3 serializes to an object
with only `"method"` and `"id"` fields, matching the repository's own
`test_serialize_list_subscriptions` test. -/
theorem toJson_no_params_for_list_subscriptions :
    (WSRequest.mk .listSubscriptions (some (.int 3))).toJson =
      .obj [("method", .str "LIST_SUBSCRIPTIONS"), ("id", .int 3)] ∧
    List.lookup "params"
      [("method", Json.str "LIST_SUBSCRIPTIONS"), ("id", Json.int 3)] = none :=
  ⟨rfl, rfl⟩

/-- C7 (amended): every `WSRequest` serializes to a JSON object whose
`"method"` field is one of SUBSCRIBE, UNSUBSCRIBE, LIST_SUBSCRIPTIONS,
SET_PROPERTY, GET_PROPERTY; whose `"params"` field, present exactly when
the request kind is not `ListSubscriptions`, carries the request's own
parameter array — the subscribed/unsubscribed stream names, the property
values, or the property names, element for element; and whose `"id"`
field is an integer, a string of at most 36 characters, or null. -/
theorem toJson_shape (r : WSRequest) :
    ∃ fields, r.toJson = .obj fields ∧
      List.lookup "method" fields = some (.str r.kind.methodName) ∧
      r.kind.methodName ∈ ["SUBSCRIBE", "UNSUBSCRIBE", "LIST_SUBSCRIPTIONS",
        "SET_PROPERTY", "GET_PROPERTY"] ∧
      (r.kind = .listSubscriptions → List.lookup "params" fields = none) ∧
      (r.kind ≠ .listSubscriptions →
        ∃ xs, List.lookup "params" fields = some (.arr xs)) ∧
      (∀ ps, r.kind = .subscribe ps →
        List.lookup "params" fields = some (.arr (ps.map .str))) ∧
      (∀ ps, r.kind = .unsubscribe ps →
        List.lookup "params" fields = some (.arr (ps.map .str))) ∧
      (∀ ps, r.kind = .setProperty ps →
        List.lookup "params" fields = some (.arr ps)) ∧
      (∀ ps, r.kind = .getProperty ps →
        List.lookup "params" fields = some (.arr (ps.map .str))) ∧
      (∃ v, List.lookup "id" fields = some v ∧
        (v = .null ∨ (∃ n, v = .int n) ∨
          (∃ s, v = .str s ∧ s.length ≤ 36))) := by
  obtain ⟨kind, id⟩ := r
  have hid : ∀ j : Option WSRequestId,
      idJson j = .null ∨ (∃ n, idJson j = .int n) ∨
      (∃ s, idJson j = .str s ∧ s.length ≤ 36) := by
    rintro (_ | i)
    · exact .inl rfl
    · cases i with
      | int n => exact .inr (.inl ⟨n, rfl⟩)
      | string rs =>
        exact .inr (.inr ⟨rs.s, rfl,
          le_trans (length_le_utf8Len rs.s) rs.hle⟩)
  cases kind <;>
    refine ⟨_, rfl, by simp [WSRequest.toJson, WSRequestKind.methodName,
        WSRequestKind.paramsJson, List.lookup],
      by simp [WSRequestKind.methodName],
      fun h => ?_, fun h => ?_,
      fun ps hps => ?_, fun ps hps => ?_, fun ps hps => ?_, fun ps hps => ?_,
      ⟨_, by simp [WSRequest.toJson, List.lookup], hid id⟩⟩ <;>
    simp_all [WSRequest.toJson, WSRequestKind.paramsJson, List.lookup]

/-- Concrete instantiation of `toJson_shape` at a `SUBSCRIBE` request for
the stream `"btcusdt@trade"`, discharging the subscribe-kind hypothesis:
the serialized `"params"` field carries exactly that stream name. -/
theorem toJson_shape_witness :
    List.lookup "method"
        [("method", Json.str "SUBSCRIBE"),
         ("params", Json.arr [Json.str "btcusdt@trade"]), ("id", Json.int 1)] =
      some (Json.str "SUBSCRIBE") ∧
    List.lookup "params"
        [("method", Json.str "SUBSCRIBE"),
         ("params", Json.arr [Json.str "btcusdt@trade"]), ("id", Json.int 1)] =
      some (Json.arr (["btcusdt@trade"].map Json.str)) := by
  obtain ⟨fields, heq, h1, -, -, -, hsub, -, -, -, -⟩ :=
    toJson_shape (WSRequest.mk (.subscribe ["btcusdt@trade"]) (some (.int 1)))
  have hc : Json.obj fields =
      Json.obj [("method", Json.str "SUBSCRIBE"),
        ("params", Json.arr [Json.str "btcusdt@trade"]), ("id", Json.int 1)] :=
    heq.symm.trans rfl
  injection hc with hf
  subst hf
  exact ⟨h1, hsub ["btcusdt@trade"] rfl⟩

/-! ### Configuration validation (`src/bins/ctl-md-handler/src/config.rs`) -/

/-- `HwResourcesConfigError::ValidationError` of `errors.rs`, the only
variant configuration validation produces. -/
inductive HwResourcesConfigError
  | validationError (msg : String)
deriving DecidableEq, Repr

deriving instance DecidableEq for Except

/-- `Medium` of `config.rs`: a protocol/parser combination. -/
structure Medium where
  protocol : String
  parser : String
deriving DecidableEq, Repr

/-- `Medium::validate`. -/
def Medium.validate (m : Medium) : Except HwResourcesConfigError Unit :=
  if m.protocol = "" then
    .error (.validationError "Medium protocol cannot be empty")
  else if m.parser = "" then
    .error (.validationError "Medium parser cannot be empty")
  else .ok ()

/-- `Medium::name`: `format!("{}/{}", protocol, parser)`. -/
def Medium.name (m : Medium) : String := m.protocol ++ "/" ++ m.parser

/-- `u32::is_power_of_two` (exactly one bit set), via repeated halving
with a structural fuel so that it evaluates in the kernel; `isPow2Aux_iff`
proves it correct for every fuel at least the input. -/
def isPow2Aux : Nat → Nat → Bool
  | _, 0 => false
  | _, 1 => true
  | 0, _ => false
  | fuel + 1, n + 2 => (n + 2) % 2 == 0 && isPow2Aux fuel ((n + 2) / 2)

/-- `u32::is_power_of_two`. -/
def isPow2 (n : Nat) : Bool := isPow2Aux n n

/-- Correctness of `isPow2Aux` for sufficient fuel. -/
theorem isPow2Aux_iff (fuel n : Nat) (h : n ≤ fuel + 1) :
    isPow2Aux fuel n = true ↔ ∃ k, n = 2 ^ k := by
  induction fuel generalizing n with
  | zero =>
    match n with
    | 0 =>
      simp only [isPow2Aux, Bool.false_eq_true, false_iff]
      rintro ⟨k, hk⟩
      have := Nat.pos_pow_of_pos k (show 0 < 2 by norm_num)
      omega
    | 1 => simpa [isPow2Aux] using ⟨0, rfl⟩
  | succ fuel ih =>
    match n with
    | 0 =>
      simp only [isPow2Aux, Bool.false_eq_true, false_iff]
      rintro ⟨k, hk⟩
      have := Nat.pos_pow_of_pos k (show 0 < 2 by norm_num)
      omega
    | 1 => simpa [isPow2Aux] using ⟨0, rfl⟩
    | n + 2 =>
      rw [isPow2Aux, Bool.and_eq_true]
      constructor
      · rintro ⟨he, hp⟩
        obtain ⟨k, hk⟩ := (ih ((n + 2) / 2) (by omega)).mp hp
        have heven : (n + 2) % 2 = 0 := by simpa using he
        refine ⟨k + 1, ?_⟩
        have := Nat.div_add_mod (n + 2) 2
        rw [pow_succ]
        omega
      · rintro ⟨k, hk⟩
        match k with
        | 0 => omega
        | k + 1 =>
          have h2 : n + 2 = 2 * 2 ^ k := by rw [hk]; ring
          constructor
          · simp [Nat.mul_mod_right, h2]
          · refine (ih ((n + 2) / 2) (by omega)).mpr ⟨k, ?_⟩
            omega

/-- `isPow2` decides membership in the powers of two. -/
theorem isPow2_iff (n : Nat) : isPow2 n = true ↔ ∃ k, n = 2 ^ k :=
  isPow2Aux_iff n n (by omega)

/-- The duplicate detection of the `HashSet::insert` loops of
`config.rs`: the first element equal to an earlier one (the `seen` set
accumulates the elements already passed). -/
def firstDupAux (seen : List String) : List String → Option String
  | [] => none
  | s :: rest =>
    if seen.contains s then some s else firstDupAux (s :: seen) rest

/-- The `for m in &self.medium { m.validate()?; }` loop: the first medium
validation error, if any. -/
def validateMediums : List Medium → Except HwResourcesConfigError Unit
  | [] => .ok ()
  | m :: rest =>
    match m.validate with
    | .error e => .error e
    | .ok _ => validateMediums rest

/-- `SymbolSet` of `config.rs`. -/
structure SymbolSet where
  name : String
  num_cpus : Nat
  ring_size : Nat
  symbols : List String
  medium : List Medium
deriving DecidableEq, Repr

/-- `SymbolSet::validate`, check for check in source order: non-empty set
name; `ring_size.is_power_of_two()`; non-empty symbol list; no empty
symbol; no duplicate symbol; non-empty medium list; each medium valid; no
duplicate medium name. -/
def SymbolSet.validate (ss : SymbolSet) : Except HwResourcesConfigError Unit :=
  if ss.name = "" then
    .error (.validationError "Symbol set name cannot be empty")
  else if !isPow2 ss.ring_size then
    .error (.validationError ("Ring size " ++ toString ss.ring_size ++
      " for set '" ++ ss.name ++ "' must be a power of 2"))
  else if ss.symbols.isEmpty then
    .error (.validationError ("Symbol set '" ++ ss.name ++
      "' must have at least one symbol"))
  else match ss.symbols.find? (fun s => s == "") with
  | some _ =>
    .error (.validationError ("Symbol set '" ++ ss.name ++
      "' contains an empty symbol"))
  | none =>
  match firstDupAux [] ss.symbols with
  | some s =>
    .error (.validationError ("Duplicate symbol '" ++ s ++ "' in set '" ++
      ss.name ++ "'"))
  | none =>
  if ss.medium.isEmpty then
    .error (.validationError ("Symbol set '" ++ ss.name ++
      "' must have at least one medium"))
  else match validateMediums ss.medium with
  | .error e => .error e
  | .ok _ =>
  match firstDupAux [] (ss.medium.map Medium.name) with
  | some mn =>
    .error (.validationError ("Duplicate medium '" ++ mn ++ "' in set '" ++
      ss.name ++ "'"))
  | none => .ok ()

/-- The `for set in &self.sets { set.validate()?; }` loop of
`FeedConfig::validate`. -/
def validateSets : List SymbolSet → Except HwResourcesConfigError Unit
  | [] => .ok ()
  | s :: rest =>
    match s.validate with
    | .error e => .error e
    | .ok _ => validateSets rest

/-- `FeedConfig` of `config.rs`. -/
structure FeedConfig where
  kind : String
  num_cpus : Option Nat
  ring_size : Option Nat
  symbols : List String
  medium : List Medium
  sets : List SymbolSet
deriving DecidableEq, Repr

/-- `FeedConfig::validate`, check for check in source order: non-empty
kind; not both `sets` and direct configuration; with sets — each set
valid, no duplicate set name, no duplicate symbol across sets; without
sets — `num_cpus` and `ring_size` present, `ring_size` a power of two,
non-empty symbol list, no empty symbol, no duplicate symbol, non-empty
medium list, each medium valid, no duplicate medium name. -/
def FeedConfig.validate (fc : FeedConfig) : Except HwResourcesConfigError Unit :=
  if fc.kind = "" then
    .error (.validationError "Feed kind cannot be empty")
  else if (!fc.sets.isEmpty) && (fc.num_cpus.isSome || fc.ring_size.isSome ||
      !fc.symbols.isEmpty || !fc.medium.isEmpty) then
    .error (.validationError ("Feed '" ++ fc.kind ++
      "' cannot have both 'sets' and direct configuration (num_cpus/ring_size/symbols/medium)"))
  else if !fc.sets.isEmpty then
    match validateSets fc.sets with
    | .error e => .error e
    | .ok _ =>
    match firstDupAux [] (fc.sets.map SymbolSet.name) with
    | some n =>
      .error (.validationError ("Duplicate set name '" ++ n ++ "' in feed '" ++
        fc.kind ++ "'"))
    | none =>
    match firstDupAux [] (fc.sets.flatMap SymbolSet.symbols) with
    | some s =>
      .error (.validationError ("Duplicate symbol '" ++ s ++
        "' across sets in feed '" ++ fc.kind ++ "'"))
    | none => .ok ()
  else match fc.num_cpus with
  | none =>
    .error (.validationError ("Feed '" ++ fc.kind ++
      "' must specify 'num_cpus' when not using sets"))
  | some _ =>
  match fc.ring_size with
  | none =>
    .error (.validationError ("Feed '" ++ fc.kind ++
      "' must specify 'ring_size' when not using sets"))
  | some rs =>
  if !isPow2 rs then
    .error (.validationError ("Ring size " ++ toString rs ++ " for feed '" ++
      fc.kind ++ "' must be a power of 2"))
  else if fc.symbols.isEmpty then
    .error (.validationError ("Feed '" ++ fc.kind ++
      "' must have at least one symbol when not using sets"))
  else match fc.symbols.find? (fun s => s == "") with
  | some _ =>
    .error (.validationError ("Feed '" ++ fc.kind ++
      "' contains an empty symbol"))
  | none =>
  match firstDupAux [] fc.symbols with
  | some s =>
    .error (.validationError ("Duplicate symbol '" ++ s ++ "' in feed '" ++
      fc.kind ++ "'"))
  | none =>
  if fc.medium.isEmpty then
    .error (.validationError ("Feed '" ++ fc.kind ++
      "' must have at least one medium when not using sets"))
  else match validateMediums fc.medium with
  | .error e => .error e
  | .ok _ =>
  match firstDupAux [] (fc.medium.map Medium.name) with
  | some mn =>
    .error (.validationError ("Duplicate medium '" ++ mn ++ "' in feed '" ++
      fc.kind ++ "'"))
  | none => .ok ()

/-- A valid symbol set has a power-of-two ring size. -/
theorem symbolSet_validate_ok_pow (ss : SymbolSet) :
    ss.validate = .ok () → isPow2 ss.ring_size = true := by
  intro h
  by_contra hp
  rw [Bool.not_eq_true] at hp
  rw [SymbolSet.validate, hp] at h
  by_cases hn : ss.name = "" <;> simp [hn] at h

/-- A non-power-of-two ring size is rejected with the power-of-2 message
(the set-name check precedes it in the source). -/
theorem symbolSet_validate_not_pow (ss : SymbolSet) (hn : ¬ ss.name = "")
    (hp : isPow2 ss.ring_size = false) :
    ss.validate = .error (.validationError ("Ring size " ++
      toString ss.ring_size ++ " for set '" ++ ss.name ++
      "' must be a power of 2")) := by
  rw [SymbolSet.validate, if_neg hn, hp]
  rfl

/-- The validation outcome never depends on which power of two the ring
size is, so a power-of-two ring size is never the cause of rejection. -/
theorem symbolSet_validate_pow_invariant (ss : SymbolSet) (a b : Nat)
    (ha : isPow2 a = true) (hb : isPow2 b = true) :
    ({ss with ring_size := a}).validate =
      ({ss with ring_size := b}).validate := by
  simp [SymbolSet.validate, ha, hb]

/-- Sequential set validation succeeds only if every set validates. -/
theorem validateSets_ok_mem (l : List SymbolSet) :
    validateSets l = .ok () → ∀ ss ∈ l, ss.validate = .ok () := by
  induction l with
  | nil => simp
  | cons s rest ih =>
    intro h ss hss
    rw [validateSets] at h
    rcases hv : s.validate with e | ⟨⟩
    · rw [hv] at h; cases h
    · rw [hv] at h
      rcases List.mem_cons.mp hss with rfl | hss
      · exact hv
      · exact ih h ss hss

/-- A valid feed configuration has power-of-two ring sizes everywhere:
the direct `ring_size`, if present, and every set's `ring_size`. -/
theorem feedConfig_validate_ok_pow (fc : FeedConfig) :
    fc.validate = .ok () →
      (∀ rs, fc.ring_size = some rs → isPow2 rs = true) ∧
      (∀ ss ∈ fc.sets, isPow2 ss.ring_size = true) := by
  intro h
  rw [FeedConfig.validate] at h
  split at h
  · cases h
  · split at h
    · cases h
    · split at h
      · rename_i hboth hsets
        constructor
        · intro rs hrs
          exfalso
          apply hboth
          simp_all
        · intro ss hss
          split at h
          · cases h
          · rename_i hv
            exact symbolSet_validate_ok_pow ss (validateSets_ok_mem _ hv ss hss)
      · rename_i hboth hsets
        rw [Bool.not_eq_true] at hsets
        constructor
        · intro rs hrs
          split at h
          · cases h
          · split at h
            · cases h
            · rename_i hrs'
              rw [hrs] at hrs'
              cases hrs'
              by_contra hp
              rw [Bool.not_eq_true] at hp
              rw [hp] at h
              simp at h
        · intro ss hss
          exfalso
          have hnil : fc.sets = [] := by
            cases hs : fc.sets with
            | nil => rfl
            | cons a t => rw [hs] at hsets; simp at hsets
          rw [hnil] at hss
          cases hss

/-- C5: configuration validation accepts a ring capacity only when it is
a power of two — `isPow2` is exactly the powers of two; a symbol set with
a non-power-of-two ring size (and a non-empty name, checked first) is
rejected with the "must be a power of 2" message; the outcome never
depends on which power of two the ring size is, so a power-of-two value
is never rejected by the ring-size check; every symbol set and feed
configuration that validates has power-of-two ring sizes throughout; and
ring size 1000 produces exactly the message
"Ring size 1000 for set 'A' must be a power of 2", which mentions
"power of 2". -/
theorem ring_size_validation_power_of_two :
    (∀ n : Nat, isPow2 n = true ↔ ∃ k, n = 2 ^ k) ∧
    (∀ ss : SymbolSet, ss.name ≠ "" → isPow2 ss.ring_size = false →
      ss.validate = .error (.validationError ("Ring size " ++
        toString ss.ring_size ++ " for set '" ++ ss.name ++
        "' must be a power of 2"))) ∧
    (∀ ss : SymbolSet, ∀ a b : Nat, isPow2 a = true → isPow2 b = true →
      ({ss with ring_size := a}).validate =
        ({ss with ring_size := b}).validate) ∧
    (∀ ss : SymbolSet, ss.validate = .ok () → isPow2 ss.ring_size = true) ∧
    (∀ fc : FeedConfig, fc.validate = .ok () →
      (∀ rs, fc.ring_size = some rs → isPow2 rs = true) ∧
      (∀ ss ∈ fc.sets, isPow2 ss.ring_size = true)) ∧
    (SymbolSet.mk "A" 1 1000 ["btcusdt"] [Medium.mk "websocket" "json"]).validate =
      .error (.validationError "Ring size 1000 for set 'A' must be a power of 2") ∧
    "Ring size 1000 for set 'A' must be a power of 2" =
      "Ring size 1000 for set 'A' must be a " ++ "power of 2" :=
  ⟨isPow2_iff, symbolSet_validate_not_pow, symbolSet_validate_pow_invariant,
   symbolSet_validate_ok_pow, feedConfig_validate_ok_pow, by decide, by decide⟩

/-- Concrete instantiations of `ring_size_validation_power_of_two`:
rejection at ring size 1000, power-of-two invariance between 1024 and 2,
and acceptance of validated configurations with sizes 1024 and 512. -/
theorem ring_size_validation_power_of_two_witness :
    (SymbolSet.mk "B" 1 1000 ["x"] [Medium.mk "websocket" "json"]).validate =
      .error (.validationError ("Ring size " ++ toString 1000 ++
        " for set '" ++ "B" ++ "' must be a power of 2")) ∧
    (SymbolSet.mk "B" 1 1024 ["x"] [Medium.mk "websocket" "json"]).validate =
      (SymbolSet.mk "B" 1 2 ["x"] [Medium.mk "websocket" "json"]).validate ∧
    isPow2 1024 = true ∧
    isPow2 512 = true :=
  ⟨ring_size_validation_power_of_two.2.1
      (SymbolSet.mk "B" 1 1000 ["x"] [Medium.mk "websocket" "json"])
      (by decide) (by decide),
   ring_size_validation_power_of_two.2.2.1
      (SymbolSet.mk "B" 1 0 ["x"] [Medium.mk "websocket" "json"]) 1024 2
      (by decide) (by decide),
   ring_size_validation_power_of_two.2.2.2.1
      (SymbolSet.mk "B" 1 1024 ["x"] [Medium.mk "websocket" "json"])
      (by decide),
   (ring_size_validation_power_of_two.2.2.2.2.1
      (FeedConfig.mk "top" (some 1) (some 512) ["btcusdt"]
        [Medium.mk "websocket" "json"] []) (by decide)).1 512 rfl⟩

/-! ### Ring naming across processes -/

/-- Rust `str::to_uppercase`, on the ASCII feed-kind names it is applied
to ("top", "trade"): uppercase every character. -/
def toUppercase (s : String) : String := String.mk (s.data.map Char.toUpper)

/-- ctl-resource-manager `main.rs`: the producer creates each ring under
`format!("{}_{}_PS", kind, symbol_id)` with
`kind = feed.kind.to_uppercase()`. -/
def resourceManagerRingName (kind : String) (symbolId : Nat) : String :=
  toUppercase kind ++ "_" ++ toString symbolId ++ "_PS"

/-- ctl-md-handler `create_top_feedgroup`:
`format!("TOP_{}_PS", symbol_id)`. -/
def mdHandlerTopRingName (symbolId : Nat) : String :=
  "TOP_" ++ toString symbolId ++ "_PS"

/-- ctl-md-handler `create_trade_feedgroup`:
`format!("TRADE_{}_PS", symbol_id)`. -/
def mdHandlerTradeRingName (symbolId : Nat) : String :=
  "TRADE_" ++ toString symbolId ++ "_PS"

/-- ctl-md-subscriber `main.rs`: `const RING_NAME: &str = "TOP_0_PS"`. -/
def subscriberRingName : String := "TOP_0_PS"

/-- C6: producer and consumer processes compute identical case-sensitive
ring names — for every symbol id, the market-data handler's `top` and
`trade` lookup names equal the resource manager's created names
`uppercase(kind) + "_" + symbol_id + "_PS"` for kinds "top" and "trade",
the subscriber's constant equals the created name for kind "top" and
id 0, and concretely these are "TOP_0_PS" and "TRADE_<id>_PS". -/
theorem ring_names_agree (symbolId : Nat) :
    mdHandlerTopRingName symbolId = resourceManagerRingName "top" symbolId ∧
    mdHandlerTradeRingName symbolId = resourceManagerRingName "trade" symbolId ∧
    subscriberRingName = resourceManagerRingName "top" 0 ∧
    resourceManagerRingName "top" 0 = "TOP_0_PS" ∧
    resourceManagerRingName "trade" 7 = "TRADE_7_PS" := by
  have htop : toUppercase "top" = "TOP" := by decide
  have htrade : toUppercase "trade" = "TRADE" := by decide
  have h1 : ("TOP_" : String) = "TOP" ++ "_" := by decide
  have h2 : ("TRADE_" : String) = "TRADE" ++ "_" := by decide
  refine ⟨?_, ?_, by decide, by decide, by decide⟩
  · rw [mdHandlerTopRingName, resourceManagerRingName, htop, h1]
  · rw [mdHandlerTradeRingName, resourceManagerRingName, htrade, h2]

/-! ### Shared-memory pub/sub ring

Modelled from the spec: the lock-free pub/sub ring lives in the external
`dpdk` crate and is not part of this repository's `src/`; the model below
follows the specification's §4.1 description. A ring holds `capacity`
slots, each carrying a sequence marker with its record payload, and a
global next-write sequence. `publish(record)` writes the record into slot
`seq mod capacity` and then publishes the slot's sequence marker, always
succeeding. `attach_consumer()` yields a private cursor initialized to
the current producer sequence (new attachments see only future data,
never backlog). `consume_start()` returns Empty when the cursor has
caught up with the producer; Success with the slot's record when the
slot's sequence marker equals the cursor; SpedPast with the current
(newer) content when the marker exceeds the cursor; and InFlight when the
slot is claimed but its marker not yet at the cursor. The sequential
model collapses the store-release marker protocol: a slot is `none` until
first published. -/

/-- Ring state (modelled from the spec, see the section comment). -/
structure PubSubRing (R : Type) where
  capacity : Nat
  slots : Nat → Option (Nat × R)
  nextSeq : Nat

/-- `create(name, capacity)`: all slots unpublished, sequence zero. -/
def PubSubRing.create (R : Type) (capacity : Nat) : PubSubRing R :=
  ⟨capacity, fun _ => none, 0⟩

/-- `publish(record)`: write into slot `seq mod capacity`, publish the
marker, advance the producer sequence; never fails, lapping overwrites. -/
def PubSubRing.publish {R : Type} (ring : PubSubRing R) (r : R) : PubSubRing R :=
  { ring with
    slots := fun i =>
      if i = ring.nextSeq % ring.capacity then some (ring.nextSeq, r)
      else ring.slots i
    nextSeq := ring.nextSeq + 1 }

/-- `attach_consumer()`: a private cursor at the producer sequence. -/
def PubSubRing.attachConsumer {R : Type} (ring : PubSubRing R) : Nat :=
  ring.nextSeq

/-- The outcomes of `consume_start()`. -/
inductive ConsumeStart (R : Type)
  | empty
  | success (r : R)
  | inFlight
  | spedPast (r : R)
deriving DecidableEq, Repr

/-- `consume_start()` at a consumer cursor (see the section comment). -/
def PubSubRing.consumeStart {R : Type} (ring : PubSubRing R) (cursor : Nat) :
    ConsumeStart R :=
  if ring.nextSeq ≤ cursor then .empty
  else match ring.slots (cursor % ring.capacity) with
    | none => .inFlight
    | some (seq, r) =>
      if seq = cursor then .success r
      else if cursor < seq then .spedPast r
      else .inFlight

/-- C8 counterexample: publishing a record and then attaching a new
consumer yields Empty from `consume_start`, not Success — the cursor of a
new attachment starts at the current producer sequence, so it sees only
future data, never the record published before the attachment. -/
theorem publish_then_attach_sees_no_backlog :
    ((PubSubRing.create Nat 4).publish 7).consumeStart
        (((PubSubRing.create Nat 4).publish 7).attachConsumer) = .empty ∧
    (ConsumeStart.empty : ConsumeStart Nat) ≠ .success 7 :=
  ⟨rfl, by decide⟩

/-- C8 (amended): attaching a consumer and then publishing record R
yields, from the next `consume_start`, Success with a record
bit-identical to R — for every ring state with positive capacity. -/
theorem attach_publish_consume_roundtrip {R : Type} (ring : PubSubRing R)
    (r : R) (_hcap : 0 < ring.capacity) :
    (ring.publish r).consumeStart ring.attachConsumer = .success r := by
  rw [PubSubRing.consumeStart]
  rw [if_neg (by simp [PubSubRing.publish, PubSubRing.attachConsumer])]
  simp [PubSubRing.publish, PubSubRing.attachConsumer]

/-- Concrete instantiation of `attach_publish_consume_roundtrip` on a
fresh capacity-4 ring of naturals. -/
theorem attach_publish_consume_roundtrip_witness :
    ((PubSubRing.create Nat 4).publish 7).consumeStart
        ((PubSubRing.create Nat 4).attachConsumer) = .success 7 :=
  attach_publish_consume_roundtrip (PubSubRing.create Nat 4) 7 (by decide)

/-! ### The dummy parser (`src/lib/ctl-feed/src/parser/parser.rs`)

`DummyParser::parse` (identical for the three feed kinds) runs
`std::str::from_utf8(raw_data)`; on success it copies the bytes into the
fixed `RAW_MESSAGE_SIZE = 512` byte `RawMessage` buffer —
`buf[..bytes.len()].copy_from_slice(bytes)`, which panics with a slice
index out of range when `bytes.len() > 512` — and zero-fills the
remainder; on a UTF-8 error it returns `DummyParserError::General`
leaving the buffer untouched. Byte buffers are embedded as `List Nat`
and UTF-8 validity of a byte sequence as the RFC 3629 byte-range
automaton `utf8Valid`, which `from_utf8` implements: ASCII bytes ≤ 0x7F
stand alone; C2–DF open a 2-byte sequence; E0 (second byte A0–BF),
E1–EC/EE/EF (80–BF), ED (80–9F, excluding surrogates) open 3-byte
sequences; F0 (90–BF), F1–F3 (80–BF), F4 (80–8F, capping at U+10FFFF)
open 4-byte sequences; continuation bytes are 80–BF. -/

/-- A UTF-8 continuation byte, `0x80..=0xBF`. -/
def isUtf8Cont (b : Nat) : Bool := 0x80 ≤ b && b ≤ 0xBF

/-- The UTF-8 validity automaton (see the section comment), with a
structural fuel of at least one unit per byte so it evaluates in the
kernel. -/
def utf8ValidAux : Nat → List Nat → Bool
  | _, [] => true
  | 0, _ => false
  | fuel + 1, b :: rest =>
    if b ≤ 0x7F then utf8ValidAux fuel rest
    else if 0xC2 ≤ b && b ≤ 0xDF then
      match rest with
      | b1 :: r => isUtf8Cont b1 && utf8ValidAux fuel r
      | [] => false
    else if b == 0xE0 then
      match rest with
      | b1 :: b2 :: r =>
        (0xA0 ≤ b1 && b1 ≤ 0xBF) && isUtf8Cont b2 && utf8ValidAux fuel r
      | _ => false
    else if (0xE1 ≤ b && b ≤ 0xEC) || b == 0xEE || b == 0xEF then
      match rest with
      | b1 :: b2 :: r => isUtf8Cont b1 && isUtf8Cont b2 && utf8ValidAux fuel r
      | _ => false
    else if b == 0xED then
      match rest with
      | b1 :: b2 :: r =>
        (0x80 ≤ b1 && b1 ≤ 0x9F) && isUtf8Cont b2 && utf8ValidAux fuel r
      | _ => false
    else if b == 0xF0 then
      match rest with
      | b1 :: b2 :: b3 :: r =>
        (0x90 ≤ b1 && b1 ≤ 0xBF) && isUtf8Cont b2 && isUtf8Cont b3 &&
          utf8ValidAux fuel r
      | _ => false
    else if 0xF1 ≤ b && b ≤ 0xF3 then
      match rest with
      | b1 :: b2 :: b3 :: r =>
        isUtf8Cont b1 && isUtf8Cont b2 && isUtf8Cont b3 && utf8ValidAux fuel r
      | _ => false
    else if b == 0xF4 then
      match rest with
      | b1 :: b2 :: b3 :: r =>
        (0x80 ≤ b1 && b1 ≤ 0x8F) && isUtf8Cont b2 && isUtf8Cont b3 &&
          utf8ValidAux fuel r
      | _ => false
    else false

/-- `std::str::from_utf8(l).is_ok()`: each automaton step consumes at
least one byte, so `l.length` fuel always suffices. -/
def utf8Valid (l : List Nat) : Bool := utf8ValidAux l.length l

/-- `DummyParserError` of `src/lib/ctl-feed/src/parser/error.rs`. -/
inductive DummyParserError
  | general
deriving DecidableEq, Repr

/-- The observable outcome of one `parse` call on the 512-byte output
buffer: a panic, an error leaving the buffer as given, or success with
the new buffer contents. -/
inductive ParseOutcome
  | panicked
  | error (e : DummyParserError) (buf : List Nat)
  | ok (buf : List Nat)
deriving DecidableEq, Repr

/-- `DummyParser::parse` (see the section comment): validate UTF-8; on
success copy into `buf[..len]` — a panic when `len > buf.len()` — and
zero-fill `buf[len..]`; on failure return `General`, buffer untouched. -/
def DummyParser.parse (rawData : List Nat) (buf : List Nat) : ParseOutcome :=
  if utf8Valid rawData then
    if rawData.length ≤ buf.length then
      .ok (rawData ++ List.replicate (buf.length - rawData.length) 0)
    else .panicked
  else .error .general buf

/-- C9: `DummyParser::parse` copies into the fixed 512-byte `RawMessage`
buffer without a length check — for every valid-UTF-8 input longer than
512 bytes it panics (slice index out of range) instead of returning a
parse error, and for every input of at most 512 bytes it returns without
panicking. -/
theorem parse_panics_beyond_buffer (rawData buf : List Nat)
    (hbuf : buf.length = 512) :
    (utf8Valid rawData = true → 512 < rawData.length →
      DummyParser.parse rawData buf = .panicked) ∧
    (rawData.length ≤ 512 → DummyParser.parse rawData buf ≠ .panicked) := by
  constructor
  · intro hv hlen
    rw [DummyParser.parse, if_pos hv, if_neg (by omega)]
  · intro hlen
    rw [DummyParser.parse]
    by_cases hv : utf8Valid rawData = true
    · rw [if_pos hv, if_pos (by omega)]
      simp
    · rw [if_neg hv]
      simp

/-- Concrete instantiations of `parse_panics_beyond_buffer`: 513 ASCII
bytes panic; a 2-byte input does not. -/
theorem parse_panics_beyond_buffer_witness :
    DummyParser.parse (List.replicate 513 65) (List.replicate 512 0) =
      .panicked ∧
    DummyParser.parse [104, 105] (List.replicate 512 0) ≠ .panicked :=
  ⟨(parse_panics_beyond_buffer (List.replicate 513 65) (List.replicate 512 0)
      (by decide)).1 (by decide) (by decide),
   (parse_panics_beyond_buffer [104, 105] (List.replicate 512 0)
      (by decide)).2 (by decide)⟩

/-- C10: for every input of length n at most 512 — if the input is valid
UTF-8, `parse` returns Ok and the output buffer's first n bytes equal
the input while the remaining 512 − n bytes are zero (the buffer has
length 512); if the input is not valid UTF-8, `parse` returns
`Err(DummyParserError::General)` and leaves the buffer unchanged. -/
theorem parse_copies_and_zero_pads (rawData buf : List Nat)
    (hbuf : buf.length = 512) (hlen : rawData.length ≤ 512) :
    (utf8Valid rawData = true →
      DummyParser.parse rawData buf =
        .ok (rawData ++ List.replicate (512 - rawData.length) 0) ∧
      (rawData ++ List.replicate (512 - rawData.length) 0).take
        rawData.length = rawData ∧
      (rawData ++ List.replicate (512 - rawData.length) 0).drop
        rawData.length = List.replicate (512 - rawData.length) 0 ∧
      (rawData ++ List.replicate (512 - rawData.length) 0).length = 512) ∧
    (utf8Valid rawData = false →
      DummyParser.parse rawData buf = .error .general buf) := by
  constructor
  · intro hv
    refine ⟨?_, List.take_left .., List.drop_left .., ?_⟩
    · rw [DummyParser.parse, if_pos hv, if_pos (by omega), hbuf]
    · simp
      omega
  · intro hv
    rw [DummyParser.parse, if_neg (by simp [hv])]

/-- Concrete instantiations of `parse_copies_and_zero_pads`: the valid
2-byte input "hi" is copied and zero-padded; the invalid byte 0xFF
yields the error with the buffer unchanged. -/
theorem parse_copies_and_zero_pads_witness :
    DummyParser.parse [104, 105] (List.replicate 512 0) =
      .ok ([104, 105] ++ List.replicate 510 0) ∧
    DummyParser.parse [255] (List.replicate 512 0) =
      .error .general (List.replicate 512 0) :=
  ⟨((parse_copies_and_zero_pads [104, 105] (List.replicate 512 0)
      (by decide) (by decide)).1 (by decide)).1,
   (parse_copies_and_zero_pads [255] (List.replicate 512 0)
      (by decide) (by decide)).2 (by decide)⟩

end BSC
